import Mathlib

/-!
Verification of the lifecycle behaviour of the voice-assistant worker in
`src/agent/main.py` (repository `3ch0-Labs/groq-voice-assistant`).

The program is shallowly embedded as trace-producing functions.  Each
awaited or fallible operation of the Python code is given an outcome by an
`Env` record (the behaviour of the external framework), and the embedded
functions replay the exact control flow of the source, recording the
observable operations (connection, pipeline construction, greeting,
stderr diagnostics, cleanup, task cancellation) in an event list.
-/

namespace GroqVoice

/-- An exception in the Python sense, restricted to the two classes the
source distinguishes: `asyncio.CancelledError` (cooperative cancellation)
and any other `Exception`, carried with its message. -/
inductive Exc where
  | cancelled
  | error (msg : String)
deriving Repr, DecidableEq

/-- Observable events of one worker process, in program order.  The
`log*` constructors stand for the four distinct `print(..., file=sys.stderr)`
statements of `src/agent/main.py`; `Event.stderrLine` below records the
exact text each one writes. -/
inductive Event where
  | connect
  | waitParticipant
  | buildChatCtx
  | buildPipeline
  | registerMetricsObserver
  | startPipeline
  | say (text : String) (allowInterruptions : Bool)
  | enterIdleLoop
  | sleep
  | cleanupInvoked
  | stopAgent
  | logGracefulShutdown
  | logEntrypointError (msg : String)
  | logCleanupError (msg : String)
  | logSignalReceived (signum : Nat)
  | newEventLoop
  | setEventLoop
  | cancelTask
  | runUntilComplete
deriving Repr, DecidableEq

/-- The exact stderr line produced by each logging event, matching the
f-strings of the source. -/
def Event.stderrLine : Event → Option String
  | Event.logGracefulShutdown => some ("Shutting down gracefully...")
  | Event.logEntrypointError m => some ("Error in entrypoint: " ++ m)
  | Event.logCleanupError m => some ("Error during cleanup: " ++ m)
  | Event.logSignalReceived n =>
      some ("Received signal " ++ toString n ++ ", initiating shutdown...")
  | _ => none

/-- `ChatMessage(role=..., content=...)` from `livekit.agents.llm`. -/
structure ChatMessage where
  role : String
  content : String
deriving Repr, DecidableEq

/-- `ChatContext(messages=[...])` from `livekit.agents.llm`. -/
structure ChatContext where
  messages : List ChatMessage
deriving Repr, DecidableEq

/-- The system persona text passed as the single system message
(`src/agent/main.py`, the `content` argument of `ChatMessage`). -/
def systemPrompt : String :=
  "You are Zephyra, an empathetic and professional AI digital human assistant designed to provide comprehensive support to individuals experiencing homelessness or financial hardships. Your primary purpose is to engage users in friendly, respectful conversations, assess their immediate needs, and connect them accurately and quickly with relevant local resources, employment opportunities, and supportive services.

When interacting:
- Always maintain a compassionate and encouraging tone
- Listen carefully to users' concerns, clearly restating and validating their experiences
- Prompt users gently to share necessary details about their professional background, life situation, and current needs
- Autonomously generate professional and personalized resumes based on provided information
- Proactively offer actionable resource connections (housing, healthcare, food, crisis intervention) tailored specifically to users' circumstances
- Recommend suitable employment opportunities based on users' stated skills, preferences, and experiences
- Provide clear, concise information and verify understanding regularly

Your goal is to empower users, create immediate positive impact, and foster hope and self-reliance through every interaction."

/-- The `initial_ctx` built in `entrypoint`: one system-role message. -/
def initial_ctx : ChatContext :=
  { messages := [{ role := "system", content := systemPrompt }] }

/-- The greeting text of `agent.say(...)` in `entrypoint`. -/
def greetingText : String := "Hello, how are you doing today?"

/-- The pipeline object constructed in `entrypoint`: the prewarmed
voice-activity detector (an abstract handle), the three Groq backends,
and the initial conversation context. -/
structure VoicePipelineAgent where
  vad : Nat
  stt : String
  llm : String
  tts_voice : String
  chat_ctx : ChatContext
deriving Repr, DecidableEq

/-- The `VoicePipelineAgent(...)` constructor call of `entrypoint`. -/
def mkAgent (vad : Nat) : VoicePipelineAgent :=
  { vad := vad
    stt := "groq.STT"
    llm := "groq.LLM"
    tts_voice := "Celeste-PlayAI"
    chat_ctx := initial_ctx }

/-- Behaviour of the external framework during one `entrypoint` run: the
outcome of each awaited or fallible step (`none` = success), how many
idle-loop iterations happen before the loop is interrupted, the exception
that finally interrupts the idle loop (the `while True` loop can only be
left by an exception), whether `agent.stop()` raises during cleanup, and
the detector handle stored in process user data. -/
structure Env where
  connect : Option Exc
  waitForParticipant : Option Exc
  buildPipeline : Option Exc
  startPipeline : Option Exc
  sayGreeting : Option Exc
  idleIters : Nat
  idleExc : Exc
  stopRaises : Option String
  vad : Nat
deriving Repr

/-- Result of running a `try` block: events emitted, the exception leaving
the block (if any), and the value of the `agent` local variable. -/
structure BodyResult where
  trace : List Event
  exc : Option Exc
  agent : Option VoicePipelineAgent
deriving Repr

/-- The `try` block of `entrypoint` (`src/agent/main.py` lines 38-82):
connect, wait for participant, build the conversation context, build the
pipeline, register the metrics callback, start the pipeline, say the
greeting, then loop on `asyncio.sleep(1)` until an exception arrives.
`agent` starts as `None` and becomes the pipeline only when its
construction succeeds. -/
def tryBody (env : Env) : BodyResult :=
  match env.connect with
  | some e => { trace := [Event.connect], exc := some e, agent := none }
  | none =>
  match env.waitForParticipant with
  | some e =>
      { trace := [Event.connect, Event.waitParticipant], exc := some e, agent := none }
  | none =>
  match env.buildPipeline with
  | some e =>
      { trace := [Event.connect, Event.waitParticipant, Event.buildChatCtx,
                  Event.buildPipeline]
        exc := some e, agent := none }
  | none =>
  match env.startPipeline with
  | some e =>
      { trace := [Event.connect, Event.waitParticipant, Event.buildChatCtx,
                  Event.buildPipeline, Event.registerMetricsObserver,
                  Event.startPipeline]
        exc := some e, agent := some (mkAgent env.vad) }
  | none =>
  match env.sayGreeting with
  | some e =>
      { trace := [Event.connect, Event.waitParticipant, Event.buildChatCtx,
                  Event.buildPipeline, Event.registerMetricsObserver,
                  Event.startPipeline, Event.say greetingText true]
        exc := some e, agent := some (mkAgent env.vad) }
  | none =>
      { trace := [Event.connect, Event.waitParticipant, Event.buildChatCtx,
                  Event.buildPipeline, Event.registerMetricsObserver,
                  Event.startPipeline, Event.say greetingText true,
                  Event.enterIdleLoop] ++ List.replicate env.idleIters Event.sleep
        exc := some env.idleExc, agent := some (mkAgent env.vad) }

/-- Result of a routine that may leave an exception pending. -/
structure CleanupResult where
  trace : List Event
  exc : Option Exc
deriving Repr

/-- The `try` body of `cleanup` (`src/agent/main.py` lines 30-31):
`if agent: await agent.stop()`.  A `None` agent gets no stop call; a stop
that fails raises an `Exception` with the given message. -/
def cleanupTryBody (agent : Option VoicePipelineAgent) (stopRaises : Option String) :
    CleanupResult :=
  match agent with
  | none => { trace := [], exc := none }
  | some _ =>
    match stopRaises with
    | none => { trace := [Event.stopAgent], exc := none }
    | some e => { trace := [Event.stopAgent], exc := some (Exc.error e) }

/-- `cleanup` (`src/agent/main.py` lines 28-34): run the body under
`except Exception as e: print(f"Error during cleanup: ...", file=sys.stderr)`.
The except clause catches `Exception` (not cooperative cancellation, which
the body never raises here since `agent.stop()` failures are ordinary
exceptions).  The `cleanupInvoked` event marks entry into the routine. -/
def cleanup (agent : Option VoicePipelineAgent) (stopRaises : Option String) :
    CleanupResult :=
  match (cleanupTryBody agent stopRaises).exc with
  | some (Exc.error e) =>
      { trace := Event.cleanupInvoked ::
          ((cleanupTryBody agent stopRaises).trace ++ [Event.logCleanupError e])
        exc := none }
  | some Exc.cancelled =>
      { trace := Event.cleanupInvoked :: (cleanupTryBody agent stopRaises).trace
        exc := some Exc.cancelled }
  | none =>
      { trace := Event.cleanupInvoked :: (cleanupTryBody agent stopRaises).trace
        exc := none }

/-- The two `except` clauses of `entrypoint`: cooperative cancellation is
logged as a graceful shutdown, any other exception as an entrypoint error;
both are swallowed. -/
def excHandlerEvents : Option Exc → List Event
  | some Exc.cancelled => [Event.logGracefulShutdown]
  | some (Exc.error e) => [Event.logEntrypointError e]
  | none => []

/-- Result of one `entrypoint` run: its full event trace and the exception
it propagates to the caller (if any). -/
structure EntryResult where
  trace : List Event
  exc : Option Exc
deriving Repr

/-- `entrypoint` (`src/agent/main.py` lines 37-88): the `try` block, then
the two `except` clauses (which catch every exception the block can
raise), then the `finally` clause `await cleanup(agent)`.  An exception
escaping the `finally` clause would be the one the handler propagates;
after the handlers there is no other pending exception. -/
def entrypoint (env : Env) : EntryResult :=
  { trace := (tryBody env).trace ++ excHandlerEvents (tryBody env).exc
      ++ (cleanup (tryBody env).agent env.stopRaises).trace
    exc := (cleanup (tryBody env).agent env.stopRaises).exc }

/-- Completion state of an asyncio task: `pending` is not yet finished;
`done`, `cancelled` and `failed` all answer true to `task.done()`. -/
inductive TaskStatus where
  | pending
  | done
  | cancelled
  | failed (msg : String)
deriving Repr, DecidableEq

/-- An asyncio task of the running loop's task world: its completion
status and whether `task.cancel()` has been requested on it.  A
cancellation request changes no status by itself — it is only observed
when the owning loop next resumes the coroutine. -/
structure ATask where
  status : TaskStatus
  cancelRequested : Bool
deriving Repr, DecidableEq

/-- `task.done()`. -/
def ATask.isDone (t : ATask) : Bool :=
  match t.status with
  | TaskStatus.pending => false
  | _ => true

/-- What `loop.run_until_complete(asyncio.gather(...))` would hand back
when it returns: per-awaitable values or exceptions captured as data. -/
inductive GatherResult where
  | value
  | exc (msg : String)
deriving Repr, DecidableEq

/-- `task.cancel()`: registers a cancellation request on a not-done task;
the task's status is unchanged until its loop runs again. -/
def requestCancel (t : ATask) : ATask :=
  if t.isDone then t else { t with cancelRequested := true }

/-- The scheduler world the signal handler acts on: whether an event loop
is currently running (`asyncio.get_running_loop()` succeeds), whether a
loop is installed as current, and the tasks `asyncio.all_tasks` reports. -/
structure LoopWorld where
  running : Bool
  installed : Bool
  tasks : List ATask
deriving Repr

/-- The not-yet-completed tasks, as selected by the handler's list
comprehension `[t for t in asyncio.all_tasks(loop) if not t.done()]`. -/
def pendingTasks (ts : List ATask) : List ATask :=
  ts.filter (fun t => !t.isDone)

/-- Result of one `handle_shutdown` run. -/
structure ShutdownResult where
  world : LoopWorld
  events : List Event
  results : List GatherResult
  raised : Option Exc
deriving Repr

/-- `handle_shutdown` (`src/agent/main.py` lines 91-106): log the signal,
then branch on `asyncio.get_running_loop()`.

When a loop is running (the normal signal-delivery case), `loop` is that
running loop, `asyncio.all_tasks(loop)` is its live task world, each
not-done task gets a `task.cancel()` request — and the final
`loop.run_until_complete(...)` then raises
`RuntimeError: This event loop is already running` from its
already-running check, so the handler propagates that exception and
returns before any cancellation has been observed: the pending tasks are
still pending, merely cancel-requested.

When no loop is running, `get_running_loop` raises `RuntimeError`, a
fresh loop is created and installed with `asyncio.set_event_loop` — but
`asyncio.all_tasks(loop)` on that fresh loop is empty, so nothing is
cancelled and `run_until_complete` of the empty gather returns `[]`
immediately, leaving the pre-existing task world untouched. -/
def handle_shutdown (signum : Nat) (w : LoopWorld) : ShutdownResult :=
  if w.running then
    { world :=
        { running := w.running
          installed := w.installed
          tasks := w.tasks.map requestCancel }
      events := [Event.logSignalReceived signum]
        ++ List.replicate (pendingTasks w.tasks).length Event.cancelTask
        ++ [Event.runUntilComplete]
      results := []
      raised := some (Exc.error ("This event loop is already running")) }
  else
    { world :=
        { running := w.running
          installed := true
          tasks := w.tasks }
      events := [Event.logSignalReceived signum, Event.newEventLoop,
                 Event.setEventLoop, Event.runUntilComplete]
      results := []
      raised := none }

/-- Process user data of one worker process; `vad` is the slot
`proc.userdata["vad"]`, holding an abstract detector handle. -/
structure JobProcess where
  vad : Option Nat
deriving Repr, DecidableEq

/-- Accesses to process user data. -/
inductive ProcOp where
  | writeVad (v : Nat)
  | readVad
deriving Repr, DecidableEq

/-- Abstract handle for the detector returned by `silero.VAD.load()`. -/
def vadLoadHandle : Nat := 0

/-- `prewarm` (`src/agent/main.py` lines 24-25):
`proc.userdata["vad"] = silero.VAD.load()` — one write of the loaded
detector into process user data. -/
def prewarm (proc : JobProcess) : JobProcess × List ProcOp :=
  ({ vad := some vadLoadHandle }, [ProcOp.writeVad vadLoadHandle])

/-- The only access `entrypoint` makes to process user data: the read
`ctx.proc.userdata["vad"]` inside the pipeline constructor call. -/
def entrypointVadOps : List ProcOp := [ProcOp.readVad]

/-- One worker process lifetime: user-data state and access log. -/
structure WorkerRun where
  proc : JobProcess
  ops : List ProcOp
deriving Repr, DecidableEq

/-- Modelled from the spec: the orchestration runtime (the `cli.run_app`
worker, outside this repository) invokes `prewarm` once per worker process
before any job is accepted, then invokes `entrypoint` once per accepted
job; `workerLifetime n` is the user-data access history of a process that
serves `n` jobs. -/
def workerLifetime (numJobs : Nat) : WorkerRun :=
  { proc := (prewarm { vad := none }).1
    ops := (prewarm { vad := none }).2 ++ (List.replicate numJobs entrypointVadOps).flatten }

/-- Event predicate: entry into `cleanup`. -/
def isCleanupInvoked : Event → Bool
  | Event.cleanupInvoked => true
  | _ => false

/-- Event predicate: an `agent.stop()` call. -/
def isStopAgent : Event → Bool
  | Event.stopAgent => true
  | _ => false

/-- Event predicate: an `agent.say(...)` utterance. -/
def isSay : Event → Bool
  | Event.say _ _ => true
  | _ => false

/-- Event predicate: the `Error in entrypoint: ...` diagnostic. -/
def isEntrypointErrorLog : Event → Bool
  | Event.logEntrypointError _ => true
  | _ => false

/-- Event predicate: creation of a new event loop. -/
def isNewEventLoop : Event → Bool
  | Event.newEventLoop => true
  | _ => false

/-- Event predicate: installing an event loop as current. -/
def isSetEventLoop : Event → Bool
  | Event.setEventLoop => true
  | _ => false

/-- Predicate: a write to the `vad` user-data slot. -/
def isWriteVad : ProcOp → Bool
  | ProcOp.writeVad _ => true
  | _ => false

/-- An environment in which all eight steps of the `try` block succeed:
only the idle-loop interruption and the cleanup behaviour remain free. -/
def allStepsOk (env : Env) : Env :=
  { env with
      connect := none
      waitForParticipant := none
      buildPipeline := none
      startPipeline := none
      sayGreeting := none }

/-- An environment in which the connect step raises `ex`. -/
def connectFails (env : Env) (ex : Exc) : Env :=
  { env with connect := some ex }

/-- An environment in which connect succeeds and the participant wait
raises `ex`. -/
def waitFails (env : Env) (ex : Exc) : Env :=
  { env with
      connect := none
      waitForParticipant := some ex }

/-- An environment in which connect and the participant wait succeed and
pipeline construction raises `Exception e`. -/
def buildFails (env : Env) (e : String) : Env :=
  { env with
      connect := none
      waitForParticipant := none
      buildPipeline := some (Exc.error e) }

/-- Counting matches in a constant list. -/
theorem countP_replicate_eq {α : Type} (p : α → Bool) (a : α) (n : Nat) :
    List.countP p (List.replicate n a) = if p a then n else 0 := by
  induction n with
  | zero => simp
  | succ n ih =>
      rw [List.replicate_succ, List.countP_cons, ih]
      cases p a <;> simp

/-- The `try` block of `entrypoint` never enters `cleanup` by itself. -/
theorem tryBody_countP_cleanupInvoked (env : Env) :
    List.countP isCleanupInvoked (tryBody env).trace = 0 := by
  rcases env with ⟨c, w, b, st, sy, n, ie, sr, v⟩
  cases c <;> cases w <;> cases b <;> cases st <;> cases sy <;>
    simp [tryBody, isCleanupInvoked, List.countP_append, List.countP_cons,
      countP_replicate_eq]

/-- The `try` block of `entrypoint` emits no entrypoint-error diagnostic. -/
theorem tryBody_countP_entrypointError (env : Env) :
    List.countP isEntrypointErrorLog (tryBody env).trace = 0 := by
  rcases env with ⟨c, w, b, st, sy, n, ie, sr, v⟩
  cases c <;> cases w <;> cases b <;> cases st <;> cases sy <;>
    simp [tryBody, isEntrypointErrorLog, List.countP_append, List.countP_cons,
      countP_replicate_eq]

/-- The `except` clauses of `entrypoint` never enter `cleanup`. -/
theorem excHandler_countP_cleanupInvoked (o : Option Exc) :
    List.countP isCleanupInvoked (excHandlerEvents o) = 0 := by
  rcases o with _ | e
  · simp [excHandlerEvents]
  · cases e <;> simp [excHandlerEvents, isCleanupInvoked]

/-- Every run of `cleanup` records exactly one entry into the routine. -/
theorem cleanup_countP_cleanupInvoked (a : Option VoicePipelineAgent) (s : Option String) :
    List.countP isCleanupInvoked (cleanup a s).trace = 1 := by
  rcases a with _ | ag <;> rcases s with _ | e <;>
    simp [cleanup, cleanupTryBody, isCleanupInvoked, List.countP_cons,
      List.countP_append]

/-- `cleanup` leaves no pending exception, whatever its inputs. -/
theorem cleanup_exc_none (a : Option VoicePipelineAgent) (s : Option String) :
    (cleanup a s).exc = none := by
  rcases a with _ | ag <;> rcases s with _ | e <;> simp [cleanup, cleanupTryBody]

/-- Every `cleanup` trace starts with the invocation marker and contains
no entrypoint-error diagnostic. -/
theorem cleanup_trace_shape (a : Option VoicePipelineAgent) (s : Option String) :
    ∃ t, (cleanup a s).trace = Event.cleanupInvoked :: t
      ∧ List.countP isEntrypointErrorLog (cleanup a s).trace = 0 := by
  rcases a with _ | ag
  · exact ⟨[], by simp [cleanup, cleanupTryBody],
      by simp [cleanup, cleanupTryBody, isEntrypointErrorLog, List.countP_cons]⟩
  · rcases s with _ | e
    · exact ⟨[Event.stopAgent], by simp [cleanup, cleanupTryBody],
        by simp [cleanup, cleanupTryBody, isEntrypointErrorLog, List.countP_cons]⟩
    · exact ⟨[Event.stopAgent, Event.logCleanupError e],
        by simp [cleanup, cleanupTryBody],
        by simp [cleanup, cleanupTryBody, isEntrypointErrorLog, List.countP_cons]⟩

/-- Flattening `n` copies of the entrypoint's single user-data read. -/
theorem flatten_replicate_vadOps (n : Nat) :
    (List.replicate n entrypointVadOps).flatten = List.replicate n ProcOp.readVad := by
  induction n with
  | zero => rfl
  | succ n ih => simp [List.replicate_succ, entrypointVadOps, ih]

/-- Claim C1: for every execution of the entrypoint job handler — whether
the `try` block ends in success, cooperative cancellation, or any other
exception — the `cleanup` routine is invoked exactly once before the
handler returns. -/
theorem entrypoint_cleanup_exactly_once (env : Env) :
    List.countP isCleanupInvoked (entrypoint env).trace = 1 := by
  simp [entrypoint, List.countP_append, tryBody_countP_cleanupInvoked,
    excHandler_countP_cleanupInvoked, cleanup_countP_cleanupInvoked]

/-- Claim C2: `cleanup` never raises: it leaves no pending exception on
any input; with a null pipeline it performs no stop call and returns
normally; and when `agent.stop()` fails, the failure is caught and logged
to the error stream rather than re-raised. -/
theorem cleanup_never_raises :
    (∀ (a : Option VoicePipelineAgent) (s : Option String), (cleanup a s).exc = none)
    ∧ (∀ (s : Option String), (cleanup none s).trace = [Event.cleanupInvoked])
    ∧ (∀ (a : VoicePipelineAgent) (e : String),
        (cleanup (some a) (some e)).trace
          = [Event.cleanupInvoked, Event.stopAgent, Event.logCleanupError e]) := by
  refine ⟨fun a s => cleanup_exc_none a s, fun s => ?_, fun a e => ?_⟩
  · simp [cleanup, cleanupTryBody]
  · simp [cleanup, cleanupTryBody]

/-- Claim C3 (code bug): the claim says every not-yet-completed task is
in a completed or cancelled state before the handler returns, exceptions
collected rather than propagated.  The code contradicts it at a SIGTERM
(signal 15) delivered while the loop is running with one pending task:
`run_until_complete` raises `RuntimeError: This event loop is already
running`, which the handler propagates, and the task is still pending at
return (only cancel-requested).  With no loop running, the handler
returns normally but the fresh loop's `all_tasks` is empty, so the
pre-existing pending task is not even cancelled. -/
theorem handle_shutdown_settles_all_tasks :
    (handle_shutdown 15 ⟨true, true, [⟨TaskStatus.pending, false⟩]⟩).raised
      = some (Exc.error ("This event loop is already running"))
    ∧ (handle_shutdown 15 ⟨true, true, [⟨TaskStatus.pending, false⟩]⟩).world.tasks
      = [⟨TaskStatus.pending, true⟩]
    ∧ ((handle_shutdown 15 ⟨true, true, [⟨TaskStatus.pending, false⟩]⟩).world.tasks.all
        ATask.isDone) = false
    ∧ (handle_shutdown 15 ⟨false, true, [⟨TaskStatus.pending, false⟩]⟩).world.tasks
      = [⟨TaskStatus.pending, false⟩] := by
  refine ⟨?_, ?_, ?_, ?_⟩ <;> rfl

/-- Claim C4: `handle_shutdown` creates and installs a new scheduler loop
if and only if no loop is currently running; when it does so, creation
and installation precede the cancellation round and the drive of the loop
(that round is empty there, since the fresh loop has no tasks), and when
a loop is running no loop is created and the cancellations precede the
`run_until_complete` call. -/
theorem handle_shutdown_loop_acquisition (signum : Nat) (w : LoopWorld) :
    List.countP isNewEventLoop (handle_shutdown signum w).events
      = (if w.running then 0 else 1)
    ∧ List.countP isSetEventLoop (handle_shutdown signum w).events
      = (if w.running then 0 else 1)
    ∧ (handle_shutdown signum w).world.installed = (w.installed || !w.running)
    ∧ (∀ (inst : Bool) (ts : List ATask),
        (handle_shutdown signum { running := false, installed := inst, tasks := ts }).events
          = [Event.logSignalReceived signum, Event.newEventLoop, Event.setEventLoop,
             Event.runUntilComplete])
    ∧ (∀ (inst : Bool) (ts : List ATask),
        (handle_shutdown signum { running := true, installed := inst, tasks := ts }).events
          = Event.logSignalReceived signum
            :: (List.replicate (pendingTasks ts).length Event.cancelTask
                ++ [Event.runUntilComplete])) := by
  refine ⟨?_, ?_, ?_, ?_, ?_⟩
  · rcases w with ⟨run, inst, ts⟩
    cases run <;>
      simp [handle_shutdown, isNewEventLoop, List.countP_append, List.countP_cons,
        countP_replicate_eq]
  · rcases w with ⟨run, inst, ts⟩
    cases run <;>
      simp [handle_shutdown, isSetEventLoop, List.countP_append, List.countP_cons,
        countP_replicate_eq]
  · rcases w with ⟨run, inst, ts⟩
    cases run <;> simp [handle_shutdown]
  · intro inst ts
    simp [handle_shutdown]
  · intro inst ts
    simp [handle_shutdown]

/-- Claim C5: when the handler's task is cancelled, `entrypoint` treats it
as a normal shutdown: it logs the graceful-shutdown diagnostic (not an
entrypoint-error diagnostic anywhere in the run) and cleanup still
follows immediately after. -/
theorem entrypoint_cancellation_graceful (env : Env)
    (h : (tryBody env).exc = some Exc.cancelled) :
    (∃ rest, (entrypoint env).trace
        = (tryBody env).trace
          ++ (Event.logGracefulShutdown :: Event.cleanupInvoked :: rest))
    ∧ List.countP isEntrypointErrorLog (entrypoint env).trace = 0 := by
  obtain ⟨t, ht, hc⟩ := cleanup_trace_shape (tryBody env).agent env.stopRaises
  constructor
  · exact ⟨t, by simp [entrypoint, h, excHandlerEvents, ht]⟩
  · simp only [entrypoint]
    rw [List.countP_append, List.countP_append, tryBody_countP_entrypointError, h, hc]
    simp [excHandlerEvents, isEntrypointErrorLog]

/-- Witness for claim C5: a concrete run whose connect step is cancelled. -/
theorem entrypoint_cancellation_graceful_witness :
    (∃ rest,
      (entrypoint ⟨some Exc.cancelled, none, none, none, none, 0, Exc.cancelled, none, 0⟩).trace
        = (tryBody ⟨some Exc.cancelled, none, none, none, none, 0, Exc.cancelled, none, 0⟩).trace
          ++ (Event.logGracefulShutdown :: Event.cleanupInvoked :: rest))
    ∧ List.countP isEntrypointErrorLog
        (entrypoint ⟨some Exc.cancelled, none, none, none, none, 0, Exc.cancelled, none, 0⟩).trace
        = 0 :=
  entrypoint_cancellation_graceful
    ⟨some Exc.cancelled, none, none, none, none, 0, Exc.cancelled, none, 0⟩ rfl

/-- Claim C6: in every run whose steps all succeed, the operations happen
in the fixed order connect, wait for participant, build conversation
context, build pipeline, register metrics observer, start pipeline, say
greeting, enter idle loop — and the greeting is said exactly once, after
the pipeline start and before the idle loop. -/
theorem entrypoint_normal_run_order (env : Env) :
    (∃ rest,
      (entrypoint (allStepsOk env)).trace
        = [Event.connect, Event.waitParticipant, Event.buildChatCtx, Event.buildPipeline,
           Event.registerMetricsObserver, Event.startPipeline,
           Event.say greetingText true, Event.enterIdleLoop] ++ rest)
    ∧ List.countP isSay (entrypoint (allStepsOk env)).trace = 1 := by
  rcases env with ⟨c, w, b, st, sy, n, ie, sr, v⟩
  constructor
  · refine ⟨List.replicate n Event.sleep ++ excHandlerEvents (some ie)
      ++ (cleanup (some (mkAgent v)) sr).trace, ?_⟩
    simp [allStepsOk, entrypoint, tryBody, List.append_assoc]
  · cases ie <;> rcases sr with _ | sre <;>
      simp [allStepsOk, entrypoint, tryBody, cleanup, cleanupTryBody, excHandlerEvents,
        isSay, List.countP_append, List.countP_cons, countP_replicate_eq]

/-- Claim C7: over a worker process lifetime the detector is written into
user data exactly once (by `prewarm`), every job only reads it, and the
stored handle stays the loaded one no matter how many jobs are served. -/
theorem prewarm_vad_loaded_once (numJobs : Nat) :
    (workerLifetime numJobs).ops
      = ProcOp.writeVad vadLoadHandle :: List.replicate numJobs ProcOp.readVad
    ∧ List.countP isWriteVad (workerLifetime numJobs).ops = 1
    ∧ (workerLifetime numJobs).proc.vad = some vadLoadHandle := by
  refine ⟨?_, ?_, rfl⟩
  · simp [workerLifetime, prewarm, flatten_replicate_vadOps]
  · simp [workerLifetime, prewarm, flatten_replicate_vadOps, isWriteVad,
      List.countP_cons, countP_replicate_eq]

/-- Claim C8: whenever the `try` block of the handler ends in any
non-cancellation exception — at connect, the participant wait, pipeline
construction, start, the greeting, or the idle loop — the handler logs
the entrypoint-error diagnostic for it, then invokes cleanup, and returns
normally: the failure ends the job, not the worker. -/
theorem entrypoint_error_logged_then_cleanup (env : Env) (e : String)
    (h : (tryBody env).exc = some (Exc.error e)) :
    (∃ rest, (entrypoint env).trace
        = (tryBody env).trace
          ++ (Event.logEntrypointError e :: Event.cleanupInvoked :: rest))
    ∧ (entrypoint env).exc = none := by
  obtain ⟨t, ht, hc⟩ := cleanup_trace_shape (tryBody env).agent env.stopRaises
  exact ⟨⟨t, by simp [entrypoint, h, excHandlerEvents, ht]⟩,
    by simp [entrypoint, cleanup_exc_none]⟩

/-- Witness for claim C8: a concrete run whose pipeline construction
raises an exception. -/
theorem entrypoint_error_logged_then_cleanup_witness :
    (∃ rest,
      (entrypoint (buildFails ⟨none, none, none, none, none, 0, Exc.cancelled, none, 0⟩
          ("boom"))).trace
        = (tryBody (buildFails ⟨none, none, none, none, none, 0, Exc.cancelled, none, 0⟩
            ("boom"))).trace
          ++ (Event.logEntrypointError ("boom") :: Event.cleanupInvoked :: rest))
    ∧ (entrypoint (buildFails ⟨none, none, none, none, none, 0, Exc.cancelled, none, 0⟩
        ("boom"))).exc = none :=
  entrypoint_error_logged_then_cleanup
    (buildFails ⟨none, none, none, none, none, 0, Exc.cancelled, none, 0⟩ ("boom"))
    ("boom") rfl

/-- Claim C9: when connect or the participant wait fails, the `agent`
variable is still null at cleanup time, so no stop call is ever issued to
a pipeline that was not constructed. -/
theorem entrypoint_no_stop_before_construction (env : Env) (ex : Exc) :
    List.countP isStopAgent (entrypoint (connectFails env ex)).trace = 0
    ∧ List.countP isStopAgent (entrypoint (waitFails env ex)).trace = 0 := by
  rcases env with ⟨c, w, b, st, sy, n, ie, sr, v⟩
  constructor <;> cases ex <;>
    simp [connectFails, waitFails, entrypoint, tryBody, cleanup, cleanupTryBody,
      excHandlerEvents, isStopAgent, List.countP_append, List.countP_cons]

/-- Claim C10: the entrypoint never propagates an exception to its
caller: whatever the outcome of the job, the handler returns normally. -/
theorem entrypoint_never_propagates (env : Env) :
    (entrypoint env).exc = none := by
  simp [entrypoint, cleanup_exc_none]

end GroqVoice
